import Mathlib

/-!
Verification of the pop-choice-worker recommendation pipeline.

The development shallowly embeds the worker's request handler
(`src/index.ts`), the Convex vector-search action (`convex/movies.ts`)
and the observability metric helpers (`src/observability/metrics.ts`).
JavaScript numbers are modelled as rationals, fallible remote calls as
`Except`, and the Opik trace/span side effects as an explicit event log
returned alongside the HTTP response.
-/

/- ## Observability metrics (`src/observability/metrics.ts`) -/

/-- Per-token pricing for a model, `{ input, output }`. -/
structure ModelPricing where
  input : ℚ
  output : ℚ
deriving DecidableEq, Repr

/-- The `pricing` record literal inside `calculateCost`: a lookup table
keyed by model name; `none` models an absent key. -/
def pricing (model : String) : Option ModelPricing :=
  if model = "gpt-4o-mini" then
    some ⟨0.15 / 1000000, 0.6 / 1000000⟩
  else if model = "text-embedding-3-small" then
    some ⟨0.02 / 1000000, 0⟩
  else
    none

/-- `calculateCost(promptTokens, completionTokens, model)`:
`pricing[model] || pricing['gpt-4o-mini']`, then
`promptTokens * rates.input + completionTokens * rates.output`. -/
def calculateCost (promptTokens completionTokens : ℕ) (model : String) : ℚ :=
  let rates := (pricing model).getD ⟨0.15 / 1000000, 0.6 / 1000000⟩
  promptTokens * rates.input + completionTokens * rates.output

/-- An element of the `results` array handed to the score statistics:
an object with a numeric `score` field. -/
structure Scored where
  score : ℚ
deriving DecidableEq, Repr

/-- `calculateAverageScore`: `0` on the empty array, otherwise
`reduce((acc, r) => acc + r.score, 0) / results.length`. -/
def calculateAverageScore (results : List Scored) : ℚ :=
  if results.length = 0 then 0
  else (results.foldl (fun acc r => acc + r.score) 0) / results.length

/-- `calculateTopScore`: `0` on the empty array, otherwise
`Math.max(...results.map(r => r.score))`. -/
def calculateTopScore (results : List Scored) : ℚ :=
  match results.map Scored.score with
  | [] => 0
  | s :: rest => rest.foldl max s

/-- `calculateMinScore`: `0` on the empty array, otherwise
`Math.min(...results.map(r => r.score))`. -/
def calculateMinScore (results : List Scored) : ℚ :=
  match results.map Scored.score with
  | [] => 0
  | s :: rest => rest.foldl min s

/- ## Origin policy and CORS headers (`src/index.ts`, lines 7-31) -/

/-- The worker environment: only the `ALLOWED_ORIGINS` variable matters for
the origin policy; `none` models an unset variable. -/
structure Env where
  ALLOWED_ORIGINS : Option String
deriving DecidableEq, Repr

/-- `getAllowedOrigins(env)`: default local-development list when the
variable is unset, otherwise split on commas and trim each entry. -/
def getAllowedOrigins (env : Env) : List String :=
  match env.ALLOWED_ORIGINS with
  | none => ["http://localhost:5173"]
  | some s => (s.splitOn ",").map String.trim

/-- `isOriginAllowed(origin, allowedOrigins)`: a missing (or empty, hence
falsy) origin is never allowed, otherwise list membership. -/
def isOriginAllowed (origin : Option String) (allowedOrigins : List String) : Bool :=
  match origin with
  | none => false
  | some o => if o = "" then false else allowedOrigins.contains o

/-- The five CORS/content-type headers built by `corsHeaders`. -/
structure CorsHeaders where
  accessControlAllowOrigin : String
  accessControlAllowMethods : String
  accessControlAllowHeaders : String
  accessControlAllowCredentials : String
  contentType : String
deriving DecidableEq, Repr

/-- `corsHeaders(origin, env)`: `Access-Control-Allow-Origin` echoes the
origin only when `isAllowed && origin` is truthy, otherwise it is empty. -/
def corsHeaders (origin : Option String) (env : Env) : CorsHeaders :=
  let allowedOrigins := getAllowedOrigins env
  let isAllowed := isOriginAllowed origin allowedOrigins
  { accessControlAllowOrigin :=
      if isAllowed ∧ origin.getD "" ≠ "" then origin.getD "" else ""
    accessControlAllowMethods := "POST, OPTIONS"
    accessControlAllowHeaders := "Content-Type, Authorization"
    accessControlAllowCredentials := "true"
    contentType := "application/json" }

/- ## Convex vector search (`convex/movies.ts`) -/

/-- A raw match returned by `ctx.vectorSearch`: document id and
similarity score (`_id` / `_score`). -/
structure VectorMatch where
  id : String
  score : ℚ
deriving DecidableEq, Repr

/-- A stored `movies` document (Convex schema: `content`, `embedding`). -/
structure MovieDoc where
  content : String
  embedding : List ℚ
deriving DecidableEq, Repr

/-- One entry of the `searchMovies` result (`MovieSearchResult`). -/
structure MovieSearchResult where
  id : String
  content : String
  score : ℚ
deriving DecidableEq, Repr

/-- The `searchMovies` action handler: ask the store for up to
`matchCount` nearest matches, keep those with `_score >= matchThreshold`,
and for each retained match fetch the document by id, defaulting a missing
document's content to `""` (`doc?.content ?? ""`). The external
`ctx.vectorSearch` and `getMovie` query are passed in as functions. -/
def searchMovies (vectorSearch : List ℚ → ℕ → List VectorMatch)
    (getMovie : String → Option MovieDoc)
    (embedding : List ℚ) (matchThreshold : ℚ) (matchCount : ℕ) :
    List MovieSearchResult :=
  let results := vectorSearch embedding matchCount
  let filteredResults := results.filter fun r => matchThreshold ≤ r.score
  filteredResults.map fun r =>
    { id := r.id
      content := ((getMovie r.id).map MovieDoc.content).getD ""
      score := r.score }

/- ## The fetch handler (`src/index.ts`, `export default { fetch }`) -/

/-- `peopleResponses` array entry. -/
structure PersonResponse where
  userResponses : String
  stringifiedQueryAndResponses : String
deriving DecidableEq, Repr

/-- `movieSetUpPreferences` object. -/
structure MovieSetUpPreferences where
  numberOfPeople : String
  time : String
deriving DecidableEq, Repr

/-- The parsed JSON request body (`requestData`). -/
structure RequestData where
  movieSetUpPreferences : MovieSetUpPreferences
  peopleResponses : List PersonResponse
deriving DecidableEq, Repr

/-- The inbound HTTP request: method, `Origin` header (`none` when
absent), and parsed body. -/
structure WorkerRequest where
  method : String
  origin : Option String
  body : RequestData
deriving DecidableEq, Repr

/-- The OpenAI chat `usage` object. -/
structure Usage where
  prompt_tokens : ℕ
  completion_tokens : ℕ
  total_tokens : ℕ
deriving DecidableEq, Repr

/-- A successful chat completion, reduced to the fields the handler
reads: `choices[0]?.message?.content` (`none` when the chain is absent
or null) and the optional `usage` block. -/
structure ChatResponse where
  content : Option String
  usage : Option Usage
deriving DecidableEq, Repr

/-- The outcome of each of the three remote calls, supplied as an oracle:
`Except.error` models the call throwing with that error message. -/
structure Outcomes where
  embedding : Except String (List ℚ)
  search : Except String (List MovieSearchResult)
  chat : Except String ChatResponse
deriving Repr

/-- Metadata attached by `trace.update` (`totalTokens`, `totalCost`,
`success`, optional `errorMessage`). -/
structure TraceMetadata where
  totalTokens : ℕ
  totalCost : ℚ
  success : Bool
  errorMessage : Option String
deriving DecidableEq, Repr

/-- A `trace.update` payload, reduced to what the claims inspect:
the `output.error` message when present, and the `metadata` block when
present (the first two failure paths pass no metadata at all). -/
structure TraceUpdate where
  outputError : Option String
  metadata : Option TraceMetadata
deriving DecidableEq, Repr

/-- Observability side effects of the handler, in emission order. -/
inductive TraceEvent where
  | spanStart (name : String)
  | spanEnd (name : String)
  | traceUpdate (u : TraceUpdate)
  | traceEnd
  | flush
deriving DecidableEq, Repr

/-- The JSON body of the HTTP response: absent (preflight), the
`{error, details?}` error shape, or the
`{movieRecommendations, content, noMatchFromLLM}` success shape. -/
inductive ResponseBody where
  | empty
  | error (message : String) (details : Option String)
  | success (movieRecommendations : Option (List MovieSearchResult))
      (content : String) (noMatchFromLLM : Bool)
deriving DecidableEq, Repr

/-- An HTTP response: status, CORS headers, body. -/
structure WorkerResponse where
  status : ℕ
  headers : CorsHeaders
  body : ResponseBody
deriving DecidableEq, Repr

/-- The arguments of the `convex.action(api.movies.searchMovies, ...)`
call made by the handler. -/
structure SearchRequest where
  matchThreshold : ℚ
  matchCount : ℕ
deriving DecidableEq, Repr

/-- What one handler run produces: the HTTP response, the trace event
log, and the requests it issued to the embedding and search services
(`none` when the pipeline never reached that call). -/
structure HandlerResult where
  response : WorkerResponse
  events : List TraceEvent
  embeddingCallInput : Option String
  searchCall : Option SearchRequest
deriving DecidableEq, Repr

/-- JavaScript `Array.prototype.join(sep)`. -/
def jsJoin (sep : String) : List String → String
  | [] => ""
  | [x] => x
  | x :: y :: rest => x ++ sep ++ jsJoin sep (y :: rest)

/-- JavaScript `String.prototype.includes(pat)`: `pat` occurs as a
contiguous substring. -/
def strIncludes (s pat : String) : Bool :=
  s.data.tails.any fun t => pat.data.isPrefixOf t

/-- The sentinel text the handler searches the generation for
(`"Sorry, I don\x27t know a movie at the moment"`). -/
def noMatchSentinel : String := "Sorry, I don\x27t know a movie at the moment"

/-- The full sentinel sentence the system prompt asks the model to emit
(spec wording), of which `noMatchSentinel` is the leading part. -/
def fullSentinelSentence : String :=
  "Sorry, I don\x27t know a movie at the moment. Lets have another go with the questions from the previous section."

/-- The `fetch` handler of `src/index.ts`, with the three remote calls
replaced by the `Outcomes` oracle. Mirrors the source order: OPTIONS
preflight, origin gate, method gate, then the embed → search → generate
pipeline with its span/trace bookkeeping. -/
def fetchHandler (req : WorkerRequest) (env : Env) (oc : Outcomes) : HandlerResult :=
  let origin := req.origin
  let allowedOrigins := getAllowedOrigins env
  let allowedHeaders := corsHeaders origin env
  if req.method = "OPTIONS" then
    { response := ⟨204, allowedHeaders, .empty⟩
      events := []
      embeddingCallInput := none
      searchCall := none }
  else if isOriginAllowed origin allowedOrigins = false then
    { response := ⟨403, allowedHeaders, .error "Origin not allowed" none⟩
      events := []
      embeddingCallInput := none
      searchCall := none }
  else if req.method ≠ "POST" then
    { response := ⟨405, allowedHeaders,
        .error ("Method " ++ req.method ++ " not allowed") none⟩
      events := []
      embeddingCallInput := none
      searchCall := none }
  else
    let availableRunTime := req.body.movieSetUpPreferences.time
    let peopleResponses := req.body.peopleResponses
    let allParticipantsResponses :=
      jsJoin "\n" (peopleResponses.map PersonResponse.userResponses)
    let embeddingInput := availableRunTime ++ "\n" ++ allParticipantsResponses
    match oc.embedding with
    | .error e =>
      { response := ⟨500, allowedHeaders,
          .error "Error creating embeddings for userResponses" (some e)⟩
        events := [.spanStart "generate-embedding", .spanEnd "generate-embedding",
          .traceUpdate ⟨some "Error creating embeddings for userResponses", none⟩,
          .traceEnd, .flush]
        embeddingCallInput := some embeddingInput
        searchCall := none }
    | .ok _embedding =>
      -- totalCost after the embedding call: estimated tokens are
      -- Math.ceil(length / 4)
      let costAfterEmbedding :=
        calculateCost ((embeddingInput.length + 3) / 4) 0 "text-embedding-3-small"
      match oc.search with
      | .error e =>
        { response := ⟨500, allowedHeaders,
            .error "Error matching documents in Convex" (some e)⟩
          events := [.spanStart "generate-embedding", .spanEnd "generate-embedding",
            .spanStart "vector-search", .spanEnd "vector-search",
            .traceUpdate ⟨some "Error matching documents in Convex", none⟩,
            .traceEnd, .flush]
          embeddingCallInput := some embeddingInput
          searchCall := some ⟨0.2, 6⟩ }
      | .ok matchedResults =>
        match oc.chat with
        | .error e =>
          -- totalTokens is still 0: the assignment from usage never ran
          { response := ⟨500, allowedHeaders,
              .error "Error creating chat completion" (some e)⟩
            events := [.spanStart "generate-embedding", .spanEnd "generate-embedding",
              .spanStart "vector-search", .spanEnd "vector-search",
              .spanStart "llm-generation", .spanEnd "llm-generation",
              .traceUpdate ⟨some "Error creating chat completion",
                some ⟨0, costAfterEmbedding, false, some e⟩⟩,
              .traceEnd, .flush]
            embeddingCallInput := some embeddingInput
            searchCall := some ⟨0.2, 6⟩ }
        | .ok chatResponse =>
          let totalTokens := (chatResponse.usage.map Usage.total_tokens).getD 0
          let totalCost := costAfterEmbedding +
            calculateCost ((chatResponse.usage.map Usage.prompt_tokens).getD 0)
              ((chatResponse.usage.map Usage.completion_tokens).getD 0) "gpt-4o-mini"
          let noMatchFromLLM :=
            (chatResponse.content.map fun c => strIncludes c noMatchSentinel).getD false
          let responseContent :=
            if noMatchFromLLM then "" else chatResponse.content.getD ""
          let movieRecommendations :=
            if noMatchFromLLM then none else some matchedResults
          { response := ⟨200, allowedHeaders,
              .success movieRecommendations responseContent noMatchFromLLM⟩
            events := [.spanStart "generate-embedding", .spanEnd "generate-embedding",
              .spanStart "vector-search", .spanEnd "vector-search",
              .spanStart "llm-generation", .spanEnd "llm-generation",
              .traceUpdate ⟨none, some ⟨totalTokens, totalCost, true, none⟩⟩,
              .traceEnd, .flush]
            embeddingCallInput := some embeddingInput
            searchCall := some ⟨0.2, 6⟩ }

/-- Number of `flush` events in a trace log. -/
def flushCount (events : List TraceEvent) : ℕ :=
  events.countP fun e => match e with | .flush => true | _ => false

/-- Does any `trace.update` in the log carry `success := false` in its
metadata? -/
def anySuccessFalse (events : List TraceEvent) : Bool :=
  events.any fun e =>
    match e with
    | .traceUpdate u => (u.metadata.map fun m => !m.success).getD false
    | _ => false

/-- Does every `trace.update` in the log lack a metadata block? -/
def allUpdatesWithoutMetadata (events : List TraceEvent) : Bool :=
  events.all fun e =>
    match e with
    | .traceUpdate u => u.metadata.isNone
    | _ => true

/- ## Concrete fixtures used to instantiate the theorems -/

/-- A sample parsed request body: two participants, 120 minutes. -/
def sampleBody : RequestData :=
  ⟨⟨"2", "120 minutes"⟩,
    [⟨"I like action movies", "Q and A one"⟩, ⟨"I like comedies", "Q and A two"⟩]⟩

/-- The environment with `ALLOWED_ORIGINS` unset (local default applies). -/
def localEnv : Env := ⟨none⟩

/-- The local-development origin that the default allow-list accepts. -/
def localOrigin : Option String := some "http://localhost:5173"

/-- A POST request from the allowed local origin. -/
def samplePost : WorkerRequest := ⟨"POST", localOrigin, sampleBody⟩

/-- A retrieved candidate used in fixtures. -/
def sampleCandidate : MovieSearchResult := ⟨"m1", "Inception (2010): a heist in dreams.", 0.9⟩

/-- All three remote calls succeed; the generation is ordinary text. -/
def plainChatOutcomes : Outcomes :=
  ⟨.ok [1], .ok [sampleCandidate], .ok ⟨some "Here are your movies.", some ⟨100, 50, 150⟩⟩⟩

/-- The embedding call throws. -/
def embedFailOutcomes : Outcomes := ⟨.error "boom", .ok [sampleCandidate], .ok ⟨none, none⟩⟩

/-- The vector-search call throws. -/
def searchFailOutcomes : Outcomes := ⟨.ok [1], .error "store down", .ok ⟨none, none⟩⟩

/-- The chat-completion call throws. -/
def chatFailOutcomes : Outcomes := ⟨.ok [1], .ok [sampleCandidate], .error "llm down"⟩

/-- The generation is exactly the sentinel text the code searches for,
without the rest of the full sentinel sentence. -/
def sentinelOnlyOutcomes : Outcomes :=
  ⟨.ok [1], .ok [sampleCandidate], .ok ⟨some noMatchSentinel, none⟩⟩

/-- The generation contains the full sentinel sentence. -/
def fullSentinelOutcomes : Outcomes :=
  ⟨.ok [1], .ok [sampleCandidate], .ok ⟨some fullSentinelSentence, none⟩⟩

/-- The chat completion succeeds but its message content is absent. -/
def absentContentOutcomes : Outcomes :=
  ⟨.ok [1], .ok [sampleCandidate], .ok ⟨none, some ⟨10, 5, 15⟩⟩⟩

/-- A vector store that returns no matches. -/
def emptyVectorStore : List ℚ → ℕ → List VectorMatch := fun _ _ => []

/-- A vector store returning a single match with score 0.5. -/
def oneMatchStore : List ℚ → ℕ → List VectorMatch := fun _ _ => [⟨"m1", 0.5⟩]

/-- A document lookup that finds nothing. -/
def noDocGetMovie : String → Option MovieDoc := fun _ => none

/- ## Theorems -/

/-- Helper: shape of the handler result when all gates pass and all three
remote calls succeed. -/
theorem fetchHandler_ok_shape (req : WorkerRequest) (env : Env) (oc : Outcomes)
    (emb : List ℚ) (ms : List MovieSearchResult) (cr : ChatResponse)
    (hm : req.method = "POST")
    (ho : isOriginAllowed req.origin (getAllowedOrigins env) = true)
    (hemb : oc.embedding = .ok emb) (hs : oc.search = .ok ms)
    (hc : oc.chat = .ok cr) :
    (fetchHandler req env oc).response =
      ⟨200, corsHeaders req.origin env,
        .success
          (if (cr.content.map fun c => strIncludes c noMatchSentinel).getD false then
            none else some ms)
          (if (cr.content.map fun c => strIncludes c noMatchSentinel).getD false then
            "" else cr.content.getD "")
          ((cr.content.map fun c => strIncludes c noMatchSentinel).getD false)⟩ := by
  unfold fetchHandler
  simp [hm, ho, hemb, hs, hc]

/-- Claim C6: the score statistics each return 0 on the empty candidate
list, and on scores [0.9, 0.5, 0.3] return top 0.9, min 0.3 and the
arithmetic mean 17/30 ≈ 0.5667. -/
theorem scoreStatistics_spec :
    calculateTopScore [] = 0 ∧ calculateAverageScore [] = 0 ∧
    calculateMinScore [] = 0 ∧
    calculateTopScore [⟨0.9⟩, ⟨0.5⟩, ⟨0.3⟩] = 0.9 ∧
    calculateMinScore [⟨0.9⟩, ⟨0.5⟩, ⟨0.3⟩] = 0.3 ∧
    calculateAverageScore [⟨0.9⟩, ⟨0.5⟩, ⟨0.3⟩] = 17 / 30 ∧
    |calculateAverageScore [⟨0.9⟩, ⟨0.5⟩, ⟨0.3⟩] - 0.5667| < 1 / 10000 := by
  refine ⟨by norm_num [calculateTopScore], by norm_num [calculateAverageScore],
    by norm_num [calculateMinScore], by norm_num [calculateTopScore],
    by norm_num [calculateMinScore], by norm_num [calculateAverageScore], ?_⟩
  have h : calculateAverageScore [⟨0.9⟩, ⟨0.5⟩, ⟨0.3⟩] = 17 / 30 := by
    norm_num [calculateAverageScore]
  rw [h, abs_lt]
  constructor <;> norm_num

/-- Claim C7: `calculateCost` is the linear pricing formula with
gpt-4o-mini rates 0.15/1e6 and 0.60/1e6, worth 0.00045 at 1000 prompt +
500 completion tokens, and any unrecognized model name falls back to the
gpt-4o-mini rates. -/
theorem calculateCost_spec (p c : ℕ) (model : String)
    (h1 : model ≠ "gpt-4o-mini") (h2 : model ≠ "text-embedding-3-small") :
    (∀ (p2 c2 : ℕ) (m : String),
      calculateCost p2 c2 m =
        p2 * ((pricing m).getD ⟨0.15 / 1000000, 0.6 / 1000000⟩).input +
        c2 * ((pricing m).getD ⟨0.15 / 1000000, 0.6 / 1000000⟩).output) ∧
    pricing "gpt-4o-mini" = some ⟨0.15 / 1000000, 0.6 / 1000000⟩ ∧
    calculateCost 1000 500 "gpt-4o-mini" = 0.00045 ∧
    calculateCost p c model = calculateCost p c "gpt-4o-mini" := by
  refine ⟨fun p2 c2 m => rfl, by norm_num [pricing],
    by norm_num [calculateCost, pricing], ?_⟩
  simp [calculateCost, pricing, h1, h2]

/-- Witness for C7 at the unrecognized model name "gpt-4o". -/
theorem calculateCost_spec_witness :
    "gpt-4o" ≠ "gpt-4o-mini" ∧ "gpt-4o" ≠ "text-embedding-3-small" ∧
    calculateCost 1000 500 "gpt-4o" = calculateCost 1000 500 "gpt-4o-mini" :=
  ⟨by decide, by decide,
    (calculateCost_spec 1000 500 "gpt-4o" (by decide) (by decide)).2.2.2⟩

/-- Claim C1 counterexample: an OPTIONS request with an absent origin is
answered 204 by the preflight branch, not 403 — the preflight handler
runs before the origin gate. -/
theorem originGate_options_counterexample :
    (fetchHandler ⟨"OPTIONS", none, sampleBody⟩ localEnv plainChatOutcomes).response.status = 204 ∧
    (fetchHandler ⟨"OPTIONS", none, sampleBody⟩ localEnv plainChatOutcomes).response.status ≠ 403 := by
  decide

/-- Claim C1 (amended): for every non-OPTIONS request whose origin is
absent or not allow-listed, the response has status 403 and an empty
`Access-Control-Allow-Origin` header. -/
theorem originGate_spec (req : WorkerRequest) (env : Env) (oc : Outcomes)
    (hm : req.method ≠ "OPTIONS")
    (ho : isOriginAllowed req.origin (getAllowedOrigins env) = false) :
    (fetchHandler req env oc).response.status = 403 ∧
    (fetchHandler req env oc).response.headers.accessControlAllowOrigin = "" := by
  unfold fetchHandler
  simp [hm, ho, corsHeaders]

/-- Witness for C1 (amended): a GET request with no origin header. -/
theorem originGate_spec_witness :
    ("GET" : String) ≠ "OPTIONS" ∧
    isOriginAllowed none (getAllowedOrigins localEnv) = false ∧
    ((fetchHandler ⟨"GET", none, sampleBody⟩ localEnv plainChatOutcomes).response.status = 403 ∧
     (fetchHandler ⟨"GET", none, sampleBody⟩ localEnv plainChatOutcomes).response.headers.accessControlAllowOrigin = "") :=
  ⟨by decide, by decide,
    originGate_spec ⟨"GET", none, sampleBody⟩ localEnv plainChatOutcomes
      (by decide) (by decide)⟩

/-- Claim C2 counterexample: a generation equal to just
"Sorry, I don\x27t know a movie at the moment" does not contain the full
sentinel sentence, yet the handler classifies it `noMatchFromLLM = true`
(and nulls the candidates): detection keys on the leading substring, not
the full sentence. -/
theorem sentinelDetection_counterexample :
    strIncludes noMatchSentinel fullSentinelSentence = false ∧
    (fetchHandler samplePost localEnv sentinelOnlyOutcomes).response.body =
      .success none "" true := by
  decide

/-- Claim C2 (amended): on a successful generation with text `c`, the
result has `noMatchFromLLM = strIncludes c noMatchSentinel` (the leading
substring of the sentinel sentence, not the full sentence); when true the
candidates are null and the content empty, when false the full retrieved
candidate list and the text are returned verbatim, and candidates are
null exactly when `noMatchFromLLM` is true. -/
theorem sentinelDetection_spec (req : WorkerRequest) (env : Env) (oc : Outcomes)
    (emb : List ℚ) (ms : List MovieSearchResult) (c : String) (u : Option Usage)
    (hm : req.method = "POST")
    (ho : isOriginAllowed req.origin (getAllowedOrigins env) = true)
    (hemb : oc.embedding = .ok emb) (hs : oc.search = .ok ms)
    (hc : oc.chat = .ok ⟨some c, u⟩) :
    (fetchHandler req env oc).response.status = 200 ∧
    (fetchHandler req env oc).response.body =
      .success (if strIncludes c noMatchSentinel then none else some ms)
        (if strIncludes c noMatchSentinel then "" else c)
        (strIncludes c noMatchSentinel) ∧
    ((if strIncludes c noMatchSentinel then (none : Option (List MovieSearchResult))
        else some ms) = none ↔ strIncludes c noMatchSentinel = true) := by
  have h := fetchHandler_ok_shape req env oc emb ms ⟨some c, u⟩ hm ho hemb hs hc
  refine ⟨by rw [h], by rw [h]; simp, ?_⟩
  cases hb : strIncludes c noMatchSentinel <;> simp [hb]

/-- Witness for C2 (amended) on a generation that does not contain the
sentinel. -/
theorem sentinelDetection_spec_witness :
    (samplePost.method = "POST" ∧
     isOriginAllowed samplePost.origin (getAllowedOrigins localEnv) = true ∧
     plainChatOutcomes.embedding = .ok [1] ∧
     plainChatOutcomes.search = .ok [sampleCandidate] ∧
     plainChatOutcomes.chat = .ok ⟨some "Here are your movies.", some ⟨100, 50, 150⟩⟩) ∧
    ((fetchHandler samplePost localEnv plainChatOutcomes).response.status = 200 ∧
     (fetchHandler samplePost localEnv plainChatOutcomes).response.body =
       .success
         (if strIncludes "Here are your movies." noMatchSentinel then none
           else some [sampleCandidate])
         (if strIncludes "Here are your movies." noMatchSentinel then ""
           else "Here are your movies.")
         (strIncludes "Here are your movies." noMatchSentinel) ∧
     ((if strIncludes "Here are your movies." noMatchSentinel then
         (none : Option (List MovieSearchResult))
         else some [sampleCandidate]) = none
       ↔ strIncludes "Here are your movies." noMatchSentinel = true)) :=
  ⟨⟨rfl, by decide, rfl, rfl, rfl⟩,
    sentinelDetection_spec samplePost localEnv plainChatOutcomes [1] [sampleCandidate]
      "Here are your movies." (some ⟨100, 50, 150⟩) rfl (by decide) rfl rfl rfl⟩

/-- Claim C3 counterexample: when the embedding call throws, the handler
does return a single 500 and flushes the trace exactly once, but no trace
update carries `success:false` — the failure update has no metadata block
at all. -/
theorem traceFlush_counterexample :
    (fetchHandler samplePost localEnv embedFailOutcomes).response.status = 500 ∧
    flushCount (fetchHandler samplePost localEnv embedFailOutcomes).events = 1 ∧
    anySuccessFalse (fetchHandler samplePost localEnv embedFailOutcomes).events = false ∧
    allUpdatesWithoutMetadata (fetchHandler samplePost localEnv embedFailOutcomes).events = true := by
  decide

/-- Claim C3 (amended): whichever of the three remote calls throws first,
the handler returns exactly one 500 whose message identifies the failed
stage and flushes the trace exactly once before responding; only the
chat-completion failure records `success:false` in trace metadata, while
embedding and vector-search failures flush a trace update that carries no
metadata block at all. -/
theorem traceFlush_spec (req : WorkerRequest) (env : Env) (oc : Outcomes)
    (hm : req.method = "POST")
    (ho : isOriginAllowed req.origin (getAllowedOrigins env) = true) :
    (∀ e, oc.embedding = .error e →
      (fetchHandler req env oc).response.status = 500 ∧
      (fetchHandler req env oc).response.body =
        .error "Error creating embeddings for userResponses" (some e) ∧
      flushCount (fetchHandler req env oc).events = 1 ∧
      allUpdatesWithoutMetadata (fetchHandler req env oc).events = true) ∧
    (∀ emb e, oc.embedding = .ok emb → oc.search = .error e →
      (fetchHandler req env oc).response.status = 500 ∧
      (fetchHandler req env oc).response.body =
        .error "Error matching documents in Convex" (some e) ∧
      flushCount (fetchHandler req env oc).events = 1 ∧
      allUpdatesWithoutMetadata (fetchHandler req env oc).events = true) ∧
    (∀ emb ms e, oc.embedding = .ok emb → oc.search = .ok ms → oc.chat = .error e →
      (fetchHandler req env oc).response.status = 500 ∧
      (fetchHandler req env oc).response.body =
        .error "Error creating chat completion" (some e) ∧
      flushCount (fetchHandler req env oc).events = 1 ∧
      anySuccessFalse (fetchHandler req env oc).events = true) := by
  refine ⟨fun e he => ?_, fun emb e hemb he => ?_, fun emb ms e hemb hs he => ?_⟩ <;>
    unfold fetchHandler <;>
    simp [hm, ho, *, flushCount, anySuccessFalse, allUpdatesWithoutMetadata]

/-- Witness for C3 (amended): the chat-completion stage throws. -/
theorem traceFlush_spec_witness :
    (samplePost.method = "POST" ∧
     isOriginAllowed samplePost.origin (getAllowedOrigins localEnv) = true) ∧
    ((fetchHandler samplePost localEnv chatFailOutcomes).response.status = 500 ∧
     (fetchHandler samplePost localEnv chatFailOutcomes).response.body =
       .error "Error creating chat completion" (some "llm down") ∧
     flushCount (fetchHandler samplePost localEnv chatFailOutcomes).events = 1 ∧
     anySuccessFalse (fetchHandler samplePost localEnv chatFailOutcomes).events = true) :=
  ⟨⟨rfl, by decide⟩,
    (traceFlush_spec samplePost localEnv chatFailOutcomes rfl (by decide)).2.2
      [1] [sampleCandidate] "llm down" rfl rfl rfl⟩

/-- Claim C5: the text sent to the embedding service is the available
time followed by every participant's `userResponses`, newline-joined, in
participant order. -/
theorem embeddingInputText_spec (req : WorkerRequest) (env : Env) (oc : Outcomes)
    (hm : req.method = "POST")
    (ho : isOriginAllowed req.origin (getAllowedOrigins env) = true)
    (hne : req.body.peopleResponses ≠ []) :
    (fetchHandler req env oc).embeddingCallInput =
      some (jsJoin "\n" (req.body.movieSetUpPreferences.time ::
        req.body.peopleResponses.map PersonResponse.userResponses)) := by
  obtain ⟨x, xs, hx⟩ : ∃ x xs, req.body.peopleResponses = x :: xs := by
    cases h : req.body.peopleResponses with
    | nil => exact absurd h hne
    | cons a l => exact ⟨a, l, rfl⟩
  unfold fetchHandler
  rcases oc with ⟨oemb, osr, och⟩
  cases oemb <;> cases osr <;> cases och <;> simp [hm, ho, hx, jsJoin]

/-- Witness for C5 on a two-participant request. -/
theorem embeddingInputText_spec_witness :
    (samplePost.method = "POST" ∧
     isOriginAllowed samplePost.origin (getAllowedOrigins localEnv) = true ∧
     samplePost.body.peopleResponses ≠ []) ∧
    (fetchHandler samplePost localEnv plainChatOutcomes).embeddingCallInput =
      some (jsJoin "\n" (samplePost.body.movieSetUpPreferences.time ::
        samplePost.body.peopleResponses.map PersonResponse.userResponses)) :=
  ⟨⟨rfl, by decide, by decide⟩,
    embeddingInputText_spec samplePost localEnv plainChatOutcomes rfl
      (by decide) (by decide)⟩

/-- Claim C8: whenever the handler classifies the generation as
`noMatchFromLLM = true`, the 200 body carries empty content (the sentinel
text is discarded) and null `movieRecommendations`. -/
theorem noMatchBody_spec (req : WorkerRequest) (env : Env) (oc : Outcomes)
    (emb : List ℚ) (ms : List MovieSearchResult) (cr : ChatResponse)
    (hm : req.method = "POST")
    (ho : isOriginAllowed req.origin (getAllowedOrigins env) = true)
    (hemb : oc.embedding = .ok emb) (hs : oc.search = .ok ms)
    (hc : oc.chat = .ok cr)
    (hnm : (cr.content.map fun c => strIncludes c noMatchSentinel).getD false = true) :
    (fetchHandler req env oc).response.status = 200 ∧
    (fetchHandler req env oc).response.body = .success none "" true := by
  have h := fetchHandler_ok_shape req env oc emb ms cr hm ho hemb hs hc
  exact ⟨by rw [h], by rw [h]; simp [hnm]⟩

/-- Witness for C8 on a generation containing the full sentinel
sentence. -/
theorem noMatchBody_spec_witness :
    (samplePost.method = "POST" ∧
     isOriginAllowed samplePost.origin (getAllowedOrigins localEnv) = true ∧
     fullSentinelOutcomes.embedding = .ok [1] ∧
     fullSentinelOutcomes.search = .ok [sampleCandidate] ∧
     fullSentinelOutcomes.chat = .ok ⟨some fullSentinelSentence, none⟩ ∧
     ((⟨some fullSentinelSentence, none⟩ : ChatResponse).content.map
       fun c => strIncludes c noMatchSentinel).getD false = true) ∧
    ((fetchHandler samplePost localEnv fullSentinelOutcomes).response.status = 200 ∧
     (fetchHandler samplePost localEnv fullSentinelOutcomes).response.body =
       .success none "" true) :=
  ⟨⟨rfl, by decide, rfl, rfl, rfl, by decide⟩,
    noMatchBody_spec samplePost localEnv fullSentinelOutcomes [1] [sampleCandidate]
      ⟨some fullSentinelSentence, none⟩ rfl (by decide) rfl rfl rfl (by decide)⟩

/-- Claim C10: a successful chat completion with absent or empty message
content yields HTTP 200 with `noMatchFromLLM = false`, the full retrieved
candidate list, and empty content — not an error and not a no-match. -/
theorem emptyGeneration_spec (req : WorkerRequest) (env : Env) (oc : Outcomes)
    (emb : List ℚ) (ms : List MovieSearchResult) (copt : Option String)
    (u : Option Usage)
    (hm : req.method = "POST")
    (ho : isOriginAllowed req.origin (getAllowedOrigins env) = true)
    (hemb : oc.embedding = .ok emb) (hs : oc.search = .ok ms)
    (hc : oc.chat = .ok ⟨copt, u⟩)
    (hempty : copt = none ∨ copt = some "") :
    (fetchHandler req env oc).response.status = 200 ∧
    (fetchHandler req env oc).response.body = .success (some ms) "" false := by
  have h := fetchHandler_ok_shape req env oc emb ms ⟨copt, u⟩ hm ho hemb hs hc
  have hs0 : strIncludes "" noMatchSentinel = false := by decide
  rcases hempty with rfl | rfl <;>
    exact ⟨by rw [h], by rw [h]; simp [hs0]⟩

/-- Witness for C10 on an absent message content. -/
theorem emptyGeneration_spec_witness :
    (samplePost.method = "POST" ∧
     isOriginAllowed samplePost.origin (getAllowedOrigins localEnv) = true ∧
     absentContentOutcomes.embedding = .ok [1] ∧
     absentContentOutcomes.search = .ok [sampleCandidate] ∧
     absentContentOutcomes.chat = .ok ⟨none, some ⟨10, 5, 15⟩⟩ ∧
     ((none : Option String) = none ∨ (none : Option String) = some "")) ∧
    ((fetchHandler samplePost localEnv absentContentOutcomes).response.status = 200 ∧
     (fetchHandler samplePost localEnv absentContentOutcomes).response.body =
       .success (some [sampleCandidate]) "" false) :=
  ⟨⟨rfl, by decide, rfl, rfl, rfl, Or.inl rfl⟩,
    emptyGeneration_spec samplePost localEnv absentContentOutcomes [1]
      [sampleCandidate] none (some ⟨10, 5, 15⟩) rfl (by decide) rfl rfl rfl
      (Or.inl rfl)⟩

/-- Claim C4: the retrieval step requests at most `matchCount` candidates
from the store, retains only those with score at least `matchThreshold`
(content fetched by id), and the pipeline invokes it with
`matchThreshold = 0.2` and `matchCount = 6`. -/
theorem retrieval_spec (vectorSearch : List ℚ → ℕ → List VectorMatch)
    (getMovie : String → Option MovieDoc) (embedding : List ℚ)
    (matchThreshold : ℚ) (matchCount : ℕ)
    (hstore : ∀ e n, (vectorSearch e n).length ≤ n)
    (req : WorkerRequest) (env : Env) (oc : Outcomes) (emb : List ℚ)
    (hm : req.method = "POST")
    (ho : isOriginAllowed req.origin (getAllowedOrigins env) = true)
    (hemb : oc.embedding = .ok emb) :
    (searchMovies vectorSearch getMovie embedding matchThreshold matchCount).length ≤ matchCount ∧
    (∀ m ∈ searchMovies vectorSearch getMovie embedding matchThreshold matchCount,
      matchThreshold ≤ m.score ∧
      m.content = ((getMovie m.id).map MovieDoc.content).getD "") ∧
    (fetchHandler req env oc).searchCall = some ⟨0.2, 6⟩ := by
  refine ⟨?_, ?_, ?_⟩
  · unfold searchMovies
    simp only [List.length_map]
    exact le_trans (List.length_filter_le _ _) (hstore embedding matchCount)
  · intro m hmem
    unfold searchMovies at hmem
    simp only [List.mem_map, List.mem_filter, decide_eq_true_eq] at hmem
    obtain ⟨r, ⟨_, hsc⟩, rfl⟩ := hmem
    exact ⟨hsc, rfl⟩
  · unfold fetchHandler
    cases hsr : oc.search <;> cases hch : oc.chat <;>
      simp [hm, ho, hemb, hsr, hch]

/-- Witness for C4 with an empty vector store and the pipeline fixture. -/
theorem retrieval_spec_witness :
    (searchMovies emptyVectorStore noDocGetMovie [1] 0.2 6).length ≤ 6 ∧
    (fetchHandler samplePost localEnv plainChatOutcomes).searchCall = some ⟨0.2, 6⟩ :=
  ⟨(retrieval_spec emptyVectorStore noDocGetMovie [1] 0.2 6
      (fun e n => by simp [emptyVectorStore]) samplePost localEnv plainChatOutcomes
      [1] rfl (by decide) rfl).1,
   (retrieval_spec emptyVectorStore noDocGetMovie [1] 0.2 6
      (fun e n => by simp [emptyVectorStore]) samplePost localEnv plainChatOutcomes
      [1] rfl (by decide) rfl).2.2⟩

/-- Claim C9: a retained vector-search match whose document lookup
returns null still produces a candidate with the match's id and score
and empty content — `searchMovies` does not fail on a missing document. -/
theorem missingDoc_spec (vectorSearch : List ℚ → ℕ → List VectorMatch)
    (getMovie : String → Option MovieDoc) (embedding : List ℚ)
    (matchThreshold : ℚ) (matchCount : ℕ) (r : VectorMatch)
    (hr : r ∈ vectorSearch embedding matchCount)
    (hsc : matchThreshold ≤ r.score)
    (hdoc : getMovie r.id = none) :
    (⟨r.id, "", r.score⟩ : MovieSearchResult) ∈
      searchMovies vectorSearch getMovie embedding matchThreshold matchCount := by
  unfold searchMovies
  simp only [List.mem_map, List.mem_filter, decide_eq_true_eq]
  exact ⟨r, ⟨hr, hsc⟩, by simp [hdoc]⟩

/-- Witness for C9 with a one-match store and an always-missing document
lookup. -/
theorem missingDoc_spec_witness :
    ((⟨"m1", 0.5⟩ : VectorMatch) ∈ oneMatchStore [1] 6 ∧
     (0.2 : ℚ) ≤ 0.5 ∧ noDocGetMovie "m1" = none) ∧
    (⟨"m1", "", 0.5⟩ : MovieSearchResult) ∈
      searchMovies oneMatchStore noDocGetMovie [1] 0.2 6 :=
  ⟨⟨by simp [oneMatchStore], by norm_num, rfl⟩,
    missingDoc_spec oneMatchStore noDocGetMovie [1] 0.2 6 ⟨"m1", 0.5⟩
      (by simp [oneMatchStore]) (by norm_num) rfl⟩
